import Mathlib

/-!
Shallow embedding of the wineserver mailslot subsystem (server/mailslot.c)
and proofs about its data model and operations: the mailslot object, its
writer set and pending-read queue, sharing arbitration at writer creation,
the readiness-driven completion of queued asynchronous reads, cancellation
and destruction, name validation, and the request handlers at the server
boundary.  Machine integers are modelled as Nat (all masks and status codes
fit well inside any relevant word size, and no arithmetic here can overflow);
the buffered datagrams of the underlying transport are modelled as the list
of their byte sizes, head first; external helpers from other server files
(async queue primitives, the object directory, handle allocation) are
modelled from the specification and marked as such in their doc comments.
-/

/-- Decidable equality of Except values with decidable components, so that
fallible operations can be evaluated on concrete inputs. -/
instance exceptDecEq {e a : Type} [DecidableEq e] [DecidableEq a] :
    DecidableEq (Except e a) := fun x y =>
  match x, y with
  | Except.ok v, Except.ok w =>
    if h : v = w then isTrue (by rw [h])
    else isFalse (fun he => h (Except.ok.inj he))
  | Except.error v, Except.error w =>
    if h : v = w then isTrue (by rw [h])
    else isFalse (fun he => h (Except.error.inj he))
  | Except.ok _, Except.error _ => isFalse (fun he => Except.noConfusion he)
  | Except.error _, Except.ok _ => isFalse (fun he => Except.noConfusion he)

/-- Windows generic read access right (winnt.h). -/
def GENERIC_READ : Nat := 0x80000000

/-- Windows generic write access right (winnt.h). -/
def GENERIC_WRITE : Nat := 0x40000000

/-- Windows share-read sharing flag (winnt.h). -/
def FILE_SHARE_READ : Nat := 1

/-- Windows share-write sharing flag (winnt.h). -/
def FILE_SHARE_WRITE : Nat := 2

/-- Readability flag of poll(2). -/
def POLLIN : Nat := 1

/-- NTSTATUS code STATUS_ALERTED. -/
def STATUS_ALERTED : Nat := 0x101

/-- NTSTATUS code STATUS_INVALID_PARAMETER. -/
def STATUS_INVALID_PARAMETER : Nat := 0xC000000D

/-- NTSTATUS code STATUS_NO_SUCH_FILE. -/
def STATUS_NO_SUCH_FILE : Nat := 0xC000000F

/-- NTSTATUS code STATUS_OBJECT_TYPE_MISMATCH. -/
def STATUS_OBJECT_TYPE_MISMATCH : Nat := 0xC0000024

/-- NTSTATUS code STATUS_OBJECT_NAME_INVALID. -/
def STATUS_OBJECT_NAME_INVALID : Nat := 0xC0000033

/-- NTSTATUS code STATUS_OBJECT_NAME_NOT_FOUND. -/
def STATUS_OBJECT_NAME_NOT_FOUND : Nat := 0xC0000034

/-- NTSTATUS code STATUS_OBJECT_NAME_COLLISION. -/
def STATUS_OBJECT_NAME_COLLISION : Nat := 0xC0000035

/-- NTSTATUS code STATUS_SHARING_VIOLATION. -/
def STATUS_SHARING_VIOLATION : Nat := 0xC0000043

/-- NTSTATUS code STATUS_IO_TIMEOUT. -/
def STATUS_IO_TIMEOUT : Nat := 0xC00000B5

/-- NTSTATUS code STATUS_CANCELLED. -/
def STATUS_CANCELLED : Nat := 0xC0000120

/-- Sentinel timeout meaning wait indefinitely ((DWORD)-1, winbase.h). -/
def MAILSLOT_WAIT_FOREVER : Nat := 0xFFFFFFFF

/-- Sentinel next-message size when no message is buffered ((DWORD)-1). -/
def MAILSLOT_NO_MESSAGE : Nat := 0xFFFFFFFF

/-- Request flag of set_mailslot_info asking for a read-timeout update
(server protocol constant). -/
def MAILSLOT_SET_READ_TIMEOUT : Nat := 1

/-- Async operation type for reads (server protocol constant). -/
def ASYNC_TYPE_READ : Nat := 1

/-- Async operation type for writes (server protocol constant). -/
def ASYNC_TYPE_WRITE : Nat := 2

/-- The struct mail_writer entry of a mailslot's writer set: the access and
sharing masks the writer was opened with.  The mailslot back reference of the
C struct is represented, where an operation needs it, by pairing the writer
with its mailslot. -/
structure mail_writer where
  access : Nat
  sharing : Nat
  deriving DecidableEq

/-- The struct mailslot: read endpoint fd and write endpoint write_fd of the
underlying datagram socket pair (modelled as endpoint identifiers), the slot
configuration max_msgsize and read_timeout, the writer set (head of the list
is the list_head the C code inspects, list_add_head prepends), and the
pending-read queue read_q holding the identities of queued async requests in
FIFO order, head first. -/
structure mailslot where
  fd : Nat
  write_fd : Nat
  max_msgsize : Nat
  read_timeout : Nat
  writers : List mail_writer
  read_q : List Nat
  deriving DecidableEq

/-- Modelled from the spec: async_terminate_head of the Notification Queue —
complete exactly the head-of-queue pending request with the given status and
remove it from the queue; a no-op on an empty queue.  Returns the remaining
queue and the list of completions performed (request identity, status). -/
def async_terminate_head (q : List Nat) (status : Nat) :
    List Nat × List (Nat × Nat) :=
  match q with
  | [] => ([], [])
  | r :: rest => (rest, [(r, status)])

/-- Modelled from the spec: async_terminate_queue of the Notification Queue —
complete every currently queued request with the given status and clear the
queue. -/
def async_terminate_queue (q : List Nat) (status : Nat) :
    List Nat × List (Nat × Nat) :=
  ([], q.map fun r => (r, status))

/-- mailslot_get_poll_events (mailslot.c lines 179-189): the poll interest is
POLLIN exactly when the pending-read queue is non-empty, else no events. -/
def mailslot_get_poll_events (m : mailslot) : Nat :=
  if m.read_q ≠ [] then 0 ||| POLLIN else 0

/-- mailslot_poll_event (mailslot.c lines 191-199): on an event containing
POLLIN while the pending-read queue is non-empty, terminate the queue head
with STATUS_ALERTED; then re-arm the poll interests computed from the new
queue state.  Returns the updated mailslot, the completions performed, and
the interest mask passed to set_fd_events. -/
def mailslot_poll_event (m : mailslot) (event : Nat) :
    mailslot × List (Nat × Nat) × Nat :=
  let qc := if m.read_q ≠ [] ∧ POLLIN &&& event ≠ 0 then
              async_terminate_head m.read_q STATUS_ALERTED
            else (m.read_q, [])
  let m1 := { m with read_q := qc.1 }
  (m1, qc.2, mailslot_get_poll_events m1)

/-- mailslot_message_count (mailslot.c lines 154-163): a zero-timeout POLLIN
poll of the read endpoint, reporting 1 exactly when a datagram is buffered in
the transport (msgs is the list of buffered datagram sizes) and 0 otherwise. -/
def mailslot_message_count (msgs : List Nat) : Nat :=
  if msgs ≠ [] then 1 else 0

/-- Modelled from the spec: check_fd_events of the poll engine — a
zero-timeout poll of the transport for the given interest mask; the result
contains POLLIN exactly when POLLIN was requested and a datagram is
buffered. -/
def check_fd_events (msgs : List Nat) (events : Nat) : Nat :=
  if msgs ≠ [] ∧ events &&& POLLIN ≠ 0 then POLLIN else 0

/-- Outcome of mailslot_queue_async: the updated mailslot, the error set for
the caller (none on acceptance), the completions delivered synchronously
within the call, and the interest mask passed to set_fd_events (none on the
error paths, which return without touching the poll interests). -/
structure AsyncResult where
  ms : mailslot
  error : Option Nat
  completions : List (Nat × Nat)
  fd_events : Option Nat
  deriving DecidableEq

/-- mailslot_queue_async (mailslot.c lines 201-237).  The request is
identified by req; msgs models the buffered transport datagrams.  A non-read
type fails with STATUS_INVALID_PARAMETER; an empty writer set or an empty
transport fails with STATUS_IO_TIMEOUT.  Otherwise create_async (modelled
from the spec: append the accepted request at the tail of the queue; its
deadline bookkeeping is not modelled, no claim concerns deadline expiry,
and allocation failure is outside the model) enqueues the request, the
transport readiness is re-checked, a pending event is handled at once via
mailslot_poll_event, and otherwise the poll interests are re-armed. -/
def mailslot_queue_async (m : mailslot) (msgs : List Nat) (req : Nat)
    (atype : Nat) : AsyncResult :=
  if atype ≠ ASYNC_TYPE_READ then
    { ms := m, error := some STATUS_INVALID_PARAMETER, completions := [],
      fd_events := none }
  else if m.writers = [] ∨ mailslot_message_count msgs = 0 then
    { ms := m, error := some STATUS_IO_TIMEOUT, completions := [],
      fd_events := none }
  else
    let m1 : mailslot := { m with read_q := m.read_q ++ [req] }
    let events := check_fd_events msgs (mailslot_get_poll_events m1)
    if events ≠ 0 then
      let pe := mailslot_poll_event m1 events
      { ms := pe.1, error := none, completions := pe.2.1,
        fd_events := some pe.2.2 }
    else
      { ms := m1, error := none, completions := [],
        fd_events := some (mailslot_get_poll_events m1) }

/-- mailslot_cancel_async (mailslot.c lines 239-245): terminate the whole
pending-read queue with STATUS_CANCELLED. -/
def mailslot_cancel_async (m : mailslot) : mailslot × List (Nat × Nat) :=
  let qc := async_terminate_queue m.read_q STATUS_CANCELLED
  ({ m with read_q := qc.1 }, qc.2)

/-- Outcome of mailslot_destroy: the completions delivered to the then-queued
pending reads and the endpoint identifiers released. -/
structure DestroyResult where
  completions : List (Nat × Nat)
  released : List Nat
  deriving DecidableEq

/-- mailslot_destroy (mailslot.c lines 132-143): terminate the whole
pending-read queue with STATUS_CANCELLED, then release both transport
endpoints. -/
def mailslot_destroy (m : mailslot) : DestroyResult :=
  { completions := (async_terminate_queue m.read_q STATUS_CANCELLED).2,
    released := [m.fd, m.write_fd] }

/-- mailslot_get_fd (mailslot.c lines 172-177): the mailslot object exposes
its read endpoint. -/
def mailslot_get_fd (m : mailslot) : Nat := m.fd

/-- mail_writer_get_fd (mailslot.c lines 330-335): a writer object exposes
writer->mailslot->write_fd; the writer's mailslot back reference is passed as
the first argument. -/
def mail_writer_get_fd (ms : mailslot) (w : mail_writer) : Nat := ms.write_fd

/-- The closed set of object kinds of this subsystem, for dispatching get_fd
through the object operation tables (mailslot_ops.get_fd and
mail_writer_ops.get_fd). -/
inductive wobject where
  | slot (m : mailslot)
  | writer (ms : mailslot) (w : mail_writer)
  deriving DecidableEq

/-- The virtual get_fd dispatch obj->ops->get_fd(obj) over the two object
kinds. -/
def object_get_fd : wobject → Nat
  | wobject.slot m => mailslot_get_fd m
  | wobject.writer ms w => mail_writer_get_fd ms w

/-- create_mail_writer (mailslot.c lines 341-370): with a non-empty writer
set, arbitrate the requested access/sharing masks against the head of the
writer set (list_head); on violation fail with STATUS_SHARING_VIOLATION,
otherwise build the new writer and prepend it to the writer set
(list_add_head).  Object allocation failure is outside the model. -/
def create_mail_writer (m : mailslot) (access sharing : Nat) :
    Except Nat (mailslot × mail_writer) :=
  match m.writers with
  | w :: _ =>
    if (access &&& GENERIC_WRITE ≠ 0 ∨ w.access &&& GENERIC_WRITE ≠ 0) ∧
       ¬(sharing &&& FILE_SHARE_WRITE ≠ 0 ∧ w.sharing &&& FILE_SHARE_WRITE ≠ 0) then
      Except.error STATUS_SHARING_VIOLATION
    else
      Except.ok
        ({ m with writers := { access := access, sharing := sharing } :: m.writers },
         { access := access, sharing := sharing })
  | [] =>
    Except.ok
      ({ m with writers := { access := access, sharing := sharing } :: m.writers },
       { access := access, sharing := sharing })

/-- tolowerW restricted to the Basic Latin rows of the casemap table used by
wine/unicode.h: the ASCII uppercase letters map down by 32, everything else
(in particular every character of the namespace token) is unchanged. -/
def tolowerW (c : Nat) : Nat :=
  if 65 ≤ c ∧ c ≤ 90 then c + 32 else c

/-- strncmpiW from wine/unicode.h: case-insensitive comparison of at most n
WCHARs, stopping early at the first difference or at a NUL in the first
string.  A list running out models the unread remainder of a longer buffer;
the uses below never read past either list. -/
def strncmpiW : List Nat → List Nat → Nat → Int
  | _, _, 0 => 0
  | c1 :: r1, c2 :: r2, n + 1 =>
    let d : Int := (tolowerW c1 : Int) - (tolowerW c2 : Int)
    if d ≠ 0 then d else if c1 = 0 then 0 else strncmpiW r1 r2 n
  | [], _, _ + 1 => 0
  | _ :: _, [], _ + 1 => 0

/-- The reserved mailslot namespace token: the WCHAR sequence of the static
array slot = "mailslot" followed by a backslash in create_mailslot, without
the terminating NUL (strlenW measures 9 characters). -/
def slotToken : List Nat := [109, 97, 105, 108, 115, 108, 111, 116, 92]

/-- Stated from the spec's words, for comparison with the source's check: the
name is case-insensitively prefixed by the token, i.e. it is at least as long
as the token and the corresponding characters agree under tolowerW. -/
def spec_ci_prefixed (tok nm : List Nat) : Bool :=
  decide (tok.length ≤ nm.length) &&
    (tok.zip nm).all fun p => tolowerW p.1 == tolowerW p.2

/-- Modelled from the spec: the objects reachable through the Directory
Binding (sync_namespace).  A bound name denotes either a live mailslot or an
object of some other kind. -/
inductive nsobject where
  | slotObj (m : mailslot)
  | otherObj (tag : Nat)
  deriving DecidableEq

/-- Modelled from the spec: find_object on sync_namespace — exact name-to-
object lookup in the Directory Binding, modelled as an association list. -/
def find_object (dir : List (List Nat × nsobject)) (name : List Nat) :
    Option nsobject :=
  match dir with
  | [] => none
  | (n, o) :: rest => if n = name then some o else find_object rest name

/-- create_mailslot (mailslot.c lines 247-292).  The name check rejects with
STATUS_OBJECT_NAME_INVALID when the name length does not exceed the token
length or strncmpiW finds a mismatch within the token.  create_named_object
is modelled from the spec: insert-if-absent on the Directory Binding, a name
already bound to a mailslot is a collision, one bound to another kind is a
type mismatch.  The socketpair endpoints are the fresh identifiers rfd
(fds[1], kept as the read endpoint) and wfd (fds[0], kept as the write
endpoint); resource-allocation failure is outside the model. -/
def create_mailslot (dir : List (List Nat × nsobject)) (name : List Nat)
    (max_msgsize read_timeout : Nat) (rfd wfd : Nat) : Except Nat mailslot :=
  if name.length ≤ slotToken.length ∨ strncmpiW slotToken name slotToken.length ≠ 0 then
    Except.error STATUS_OBJECT_NAME_INVALID
  else
    match find_object dir name with
    | some (nsobject.slotObj _) => Except.error STATUS_OBJECT_NAME_COLLISION
    | some _ => Except.error STATUS_OBJECT_TYPE_MISMATCH
    | none =>
      Except.ok
        { fd := rfd, write_fd := wfd, max_msgsize := max_msgsize,
          read_timeout := read_timeout, writers := [], read_q := [] }

/-- open_mailslot (mailslot.c lines 294-310): resolve the name; an object of
another kind is STATUS_OBJECT_TYPE_MISMATCH, an unresolved name is
STATUS_OBJECT_NAME_NOT_FOUND. -/
def open_mailslot (dir : List (List Nat × nsobject)) (name : List Nat) :
    Except Nat mailslot :=
  match find_object dir name with
  | some (nsobject.slotObj m) => Except.ok m
  | some _ => Except.error STATUS_OBJECT_TYPE_MISMATCH
  | none => Except.error STATUS_OBJECT_NAME_NOT_FOUND

/-- A handle-table entry as produced by alloc_handle, modelled from the spec:
the granted access mask and the inherit flag recorded for the new handle. -/
structure handle_entry where
  access : Nat
  inherit : Bool
  deriving DecidableEq

/-- The create_mailslot request handler (mailslot.c lines 382-395): on
success the reply handle is allocated with access GENERIC_READ regardless of
the request parameters. -/
def req_create_mailslot (dir : List (List Nat × nsobject)) (name : List Nat)
    (max_msgsize read_timeout : Nat) (inherit : Bool) (rfd wfd : Nat) :
    Option handle_entry :=
  match create_mailslot dir name max_msgsize read_timeout rfd wfd with
  | Except.ok _ => some { access := GENERIC_READ, inherit := inherit }
  | Except.error _ => none

/-- The open_mailslot request handler (mailslot.c lines 399-427): a request
without FILE_SHARE_READ fails with STATUS_SHARING_VIOLATION before the name
is resolved; when open_mailslot fails, the handler's else branch overwrites
whatever error the lookup set with STATUS_NO_SUCH_FILE; a writer admitted by
create_mail_writer yields a handle carrying the requested access mask. -/
def req_open_mailslot (dir : List (List Nat × nsobject)) (name : List Nat)
    (access sharing : Nat) (inherit : Bool) : Except Nat handle_entry :=
  if sharing &&& FILE_SHARE_READ = 0 then
    Except.error STATUS_SHARING_VIOLATION
  else
    match open_mailslot dir name with
    | Except.ok m =>
      match create_mail_writer m access sharing with
      | Except.ok _ => Except.ok { access := access, inherit := inherit }
      | Except.error e => Except.error e
    | Except.error _ => Except.error STATUS_NO_SUCH_FILE

/-- The reply of the set_mailslot_info request handler. -/
structure SetInfoReply where
  max_msgsize : Nat
  read_timeout : Nat
  msg_count : Nat
  next_msgsize : Nat
  deriving DecidableEq

/-- The set_mailslot_info request handler on a valid mailslot handle
(mailslot.c lines 431-454).  msgs is the buffered transport state: recv with
MSG_PEEK and MSG_TRUNC is the non-consuming peek of the head datagram,
returning its size, or a negative value (mapped to MAILSLOT_NO_MESSAGE) when
nothing is buffered.  Returns the updated mailslot, the transport state
after the call, and the reply. -/
def req_set_mailslot_info (m : mailslot) (msgs : List Nat)
    (flags read_timeout : Nat) : mailslot × List Nat × SetInfoReply :=
  let m1 := if flags &&& MAILSLOT_SET_READ_TIMEOUT ≠ 0 then
              { m with read_timeout := read_timeout }
            else m
  let next := match msgs with
    | [] => MAILSLOT_NO_MESSAGE
    | n :: _ => n
  (m1, msgs,
   { max_msgsize := m1.max_msgsize, read_timeout := m1.read_timeout,
     msg_count := mailslot_message_count msgs, next_msgsize := next })

/-- A mailslot with one attached writer (opened with write access and shared
writing), an empty pending-read queue, and distinct transport endpoints. -/
def exampleSlotNoQueue : mailslot :=
  { fd := 5, write_fd := 6, max_msgsize := 16,
    read_timeout := MAILSLOT_WAIT_FOREVER,
    writers := [{ access := GENERIC_WRITE, sharing := FILE_SHARE_WRITE }],
    read_q := [] }

/-- A mailslot with one attached writer and two queued pending reads. -/
def exampleSlotQueued : mailslot :=
  { fd := 5, write_fd := 6, max_msgsize := 16, read_timeout := 0,
    writers := [{ access := GENERIC_WRITE, sharing := FILE_SHARE_WRITE }],
    read_q := [7, 8] }

/-- A directory binding one name to an object that is not a mailslot. -/
def exampleForeignDir : List (List Nat × nsobject) :=
  [([1], nsobject.otherObj 0)]

/-- A valid mailslot name: the namespace token followed by one character. -/
def exampleName : List Nat := slotToken ++ [97]

/-- C2: for an attach attempt against a mailslot whose writer set is
non-empty, with requested masks access/sharing and the representative
existing writer w (the head of the writer set the code inspects), admission
fails with STATUS_SHARING_VIOLATION iff (the request or the representative
includes GENERIC_WRITE) and not (both sharing masks include
FILE_SHARE_WRITE); otherwise the new writer carrying the requested masks is
created and inserted into the writer set. -/
theorem C2_sharing_arbitration (m : mailslot) (w : mail_writer)
    (rest : List mail_writer) (hw : m.writers = w :: rest)
    (access sharing : Nat) :
    (create_mail_writer m access sharing = Except.error STATUS_SHARING_VIOLATION ↔
      ((access &&& GENERIC_WRITE ≠ 0 ∨ w.access &&& GENERIC_WRITE ≠ 0) ∧
       ¬(sharing &&& FILE_SHARE_WRITE ≠ 0 ∧ w.sharing &&& FILE_SHARE_WRITE ≠ 0))) ∧
    (¬((access &&& GENERIC_WRITE ≠ 0 ∨ w.access &&& GENERIC_WRITE ≠ 0) ∧
       ¬(sharing &&& FILE_SHARE_WRITE ≠ 0 ∧ w.sharing &&& FILE_SHARE_WRITE ≠ 0)) →
      create_mail_writer m access sharing =
        Except.ok
          ({ m with writers := { access := access, sharing := sharing } :: m.writers },
           { access := access, sharing := sharing })) := by
  have hrw : create_mail_writer m access sharing =
      if (access &&& GENERIC_WRITE ≠ 0 ∨ w.access &&& GENERIC_WRITE ≠ 0) ∧
         ¬(sharing &&& FILE_SHARE_WRITE ≠ 0 ∧ w.sharing &&& FILE_SHARE_WRITE ≠ 0) then
        Except.error STATUS_SHARING_VIOLATION
      else
        Except.ok
          ({ m with writers := { access := access, sharing := sharing } :: m.writers },
           { access := access, sharing := sharing }) := by
    unfold create_mail_writer
    rw [hw]
  rw [hrw]
  by_cases hc : (access &&& GENERIC_WRITE ≠ 0 ∨ w.access &&& GENERIC_WRITE ≠ 0) ∧
      ¬(sharing &&& FILE_SHARE_WRITE ≠ 0 ∧ w.sharing &&& FILE_SHARE_WRITE ≠ 0)
  · simp [hc]
  · simp [hc]

/-- C2 witness: against the example slot whose sole writer opened with
GENERIC_WRITE and FILE_SHARE_WRITE, a second writer requesting the same
masks is admitted and prepended to the writer set. -/
theorem C2_sharing_arbitration_witness :
    create_mail_writer exampleSlotNoQueue GENERIC_WRITE FILE_SHARE_WRITE =
      Except.ok
        ({ exampleSlotNoQueue with
            writers := { access := GENERIC_WRITE, sharing := FILE_SHARE_WRITE } ::
                       exampleSlotNoQueue.writers },
         { access := GENERIC_WRITE, sharing := FILE_SHARE_WRITE }) :=
  (C2_sharing_arbitration exampleSlotNoQueue
      { access := GENERIC_WRITE, sharing := FILE_SHARE_WRITE } [] rfl
      GENERIC_WRITE FILE_SHARE_WRITE).2 (by decide)

/-- C4: an explicit cancel completes every currently queued pending read with
STATUS_CANCELLED and leaves the queue empty, and destruction performs the
same full-queue cancellation and additionally releases both transport
endpoints, the read endpoint and the write endpoint. -/
theorem C4_cancel_and_destroy (m : mailslot) :
    (mailslot_cancel_async m).1.read_q = [] ∧
    (mailslot_cancel_async m).2 = m.read_q.map (fun r => (r, STATUS_CANCELLED)) ∧
    (mailslot_destroy m).completions =
      m.read_q.map (fun r => (r, STATUS_CANCELLED)) ∧
    (mailslot_destroy m).released = [m.fd, m.write_fd] := by
  refine ⟨rfl, rfl, rfl, rfl⟩

/-- C8: file-descriptor retrieval through a writer object yields its
mailslot's write endpoint, never the read endpoint (the two endpoints of one
transport pair being distinct), while the read endpoint is what retrieval
through the mailslot object itself yields. -/
theorem C8_writer_fd_isolation (ms : mailslot) (w : mail_writer)
    (hfd : ms.fd ≠ ms.write_fd) :
    object_get_fd (wobject.writer ms w) = ms.write_fd ∧
    object_get_fd (wobject.writer ms w) ≠ object_get_fd (wobject.slot ms) ∧
    object_get_fd (wobject.slot ms) = ms.fd := by
  refine ⟨rfl, ?_, rfl⟩
  intro h
  exact hfd (h.symm)

/-- C8 witness: on the example slot with endpoints 5 and 6, a writer's
retrieval yields 6 (the write endpoint) and differs from the mailslot's own
retrieval, which yields 5 (the read endpoint). -/
theorem C8_writer_fd_isolation_witness :
    object_get_fd (wobject.writer exampleSlotNoQueue { access := 0, sharing := 0 }) =
      exampleSlotNoQueue.write_fd ∧
    object_get_fd (wobject.writer exampleSlotNoQueue { access := 0, sharing := 0 }) ≠
      object_get_fd (wobject.slot exampleSlotNoQueue) ∧
    object_get_fd (wobject.slot exampleSlotNoQueue) = exampleSlotNoQueue.fd :=
  C8_writer_fd_isolation exampleSlotNoQueue { access := 0, sharing := 0 } (by decide)

/-- C9: every successful create_mailslot request allocates the reply handle
with exactly GENERIC_READ access, whatever the request parameters, and that
access mask contains no GENERIC_WRITE bit. -/
theorem C9_reader_handle_access (dir : List (List Nat × nsobject))
    (name : List Nat) (max_msgsize read_timeout : Nat) (inherit : Bool)
    (rfd wfd : Nat) (h : handle_entry)
    (hh : req_create_mailslot dir name max_msgsize read_timeout inherit rfd wfd =
      some h) :
    h.access = GENERIC_READ ∧ h.access &&& GENERIC_WRITE = 0 := by
  unfold req_create_mailslot at hh
  cases hc : create_mailslot dir name max_msgsize read_timeout rfd wfd with
  | ok m =>
    rw [hc] at hh
    simp only [Option.some.injEq] at hh
    rw [← hh]
    refine ⟨rfl, ?_⟩
    show GENERIC_READ &&& GENERIC_WRITE = 0
    decide
  | error e =>
    rw [hc] at hh
    exact absurd hh (by simp)

/-- C9 witness: creating the example valid name in an empty directory
succeeds and the granted access is GENERIC_READ with no write bit. -/
theorem C9_reader_handle_access_witness :
    ({ access := GENERIC_READ, inherit := false } : handle_entry).access =
      GENERIC_READ ∧
    ({ access := GENERIC_READ, inherit := false } : handle_entry).access &&&
      GENERIC_WRITE = 0 :=
  C9_reader_handle_access [] exampleName 0 0 false 0 1
    { access := GENERIC_READ, inherit := false } (by decide)

/-- Terminating the head of a non-empty queue completes exactly its first
element: the completed identities followed by the remaining queue rebuild
the original queue, the completion list is the head paired with the status,
and the remaining queue is the tail. -/
theorem async_terminate_head_split (q : List Nat) (s : Nat) (hq : q ≠ []) :
    ((async_terminate_head q s).2.map Prod.fst ++ (async_terminate_head q s).1 = q) ∧
    (async_terminate_head q s).2 = [(q.headI, s)] ∧
    (async_terminate_head q s).1 = q.tail := by
  cases q with
  | nil => exact absurd rfl hq
  | cons r rest => exact ⟨rfl, rfl, rfl⟩

/-- On the accepted path (non-empty writer set and a buffered message) a
read-type mailslot_queue_async appends the request, finds the transport
readable in its synchronous re-check, completes the head of the extended
queue with STATUS_ALERTED, and re-arms the interests from the remaining
queue. -/
theorem mailslot_queue_async_accepted (m : mailslot) (msgs : List Nat) (req : Nat)
    (hw : m.writers ≠ []) (hm : msgs ≠ []) :
    mailslot_queue_async m msgs req ASYNC_TYPE_READ =
      { ms := { m with read_q := (m.read_q ++ [req]).tail },
        error := none,
        completions := [((m.read_q ++ [req]).headI, STATUS_ALERTED)],
        fd_events :=
          some (mailslot_get_poll_events
            { m with read_q := (m.read_q ++ [req]).tail }) } := by
  cases hrq : m.read_q with
  | nil =>
    simp [mailslot_queue_async, mailslot_message_count, check_fd_events,
      mailslot_get_poll_events, mailslot_poll_event, async_terminate_head,
      hw, hm, hrq, POLLIN]
  | cons r rest =>
    simp [mailslot_queue_async, mailslot_message_count, check_fd_events,
      mailslot_get_poll_events, mailslot_poll_event, async_terminate_head,
      hw, hm, hrq, POLLIN]

/-- C1 counterexample: a read-type QueueAsyncRead against a mailslot whose
writer set is non-empty nevertheless fails immediately with
STATUS_IO_TIMEOUT — and is not appended to the pending-read queue — when
readiness polling shows no message buffered, refuting the claim that the
request fails immediately if and only if the writer set is empty. -/
theorem C1_counterexample :
    exampleSlotNoQueue.writers ≠ [] ∧
    (mailslot_queue_async exampleSlotNoQueue [] 7 ASYNC_TYPE_READ).error =
      some STATUS_IO_TIMEOUT ∧
    (mailslot_queue_async exampleSlotNoQueue [] 7 ASYNC_TYPE_READ).ms.read_q = [] := by
  decide

/-- C1 (amended): a read-type QueueAsyncRead fails immediately with
STATUS_IO_TIMEOUT, leaving the mailslot untouched, iff the writer set is
empty or readiness polling shows no message buffered; when the writer set is
non-empty and a message is buffered the request is accepted and appended to
the pending-read queue (the call then synchronously completes the head of
the extended queue, so the completions plus the remaining queue together
carry precisely the old queue with the new request appended). -/
theorem C1_queue_async_failure_iff (m : mailslot) (msgs : List Nat) (req : Nat) :
    ((mailslot_queue_async m msgs req ASYNC_TYPE_READ).error = some STATUS_IO_TIMEOUT ∧
      (mailslot_queue_async m msgs req ASYNC_TYPE_READ).ms = m ↔
      m.writers = [] ∨ msgs = []) ∧
    (m.writers ≠ [] → msgs ≠ [] →
      (mailslot_queue_async m msgs req ASYNC_TYPE_READ).error = none ∧
      (mailslot_queue_async m msgs req ASYNC_TYPE_READ).completions.map Prod.fst ++
        (mailslot_queue_async m msgs req ASYNC_TYPE_READ).ms.read_q =
        m.read_q ++ [req]) := by
  by_cases hw : m.writers = []
  · constructor
    · simp [mailslot_queue_async, hw]
    · intro hw2 _
      exact absurd hw hw2
  · by_cases hm : msgs = []
    · constructor
      · simp [mailslot_queue_async, mailslot_message_count, hm, hw]
      · intro _ hm2
        exact absurd hm hm2
    · rw [mailslot_queue_async_accepted m msgs req hw hm]
      constructor
      · simp [hw, hm]
      · intro _ _
        refine ⟨rfl, ?_⟩
        show [(m.read_q ++ [req]).headI] ++ (m.read_q ++ [req]).tail = m.read_q ++ [req]
        cases hrq : m.read_q with
        | nil => rfl
        | cons r rest => rfl

/-- C1 witness: on the example slot with one writer and one buffered
message, the request is accepted and the queue contents (completed plus
still pending) are the old queue with the request appended. -/
theorem C1_queue_async_failure_iff_witness :
    (mailslot_queue_async exampleSlotNoQueue [9] 7 ASYNC_TYPE_READ).error = none ∧
    (mailslot_queue_async exampleSlotNoQueue [9] 7 ASYNC_TYPE_READ).completions.map
        Prod.fst ++
      (mailslot_queue_async exampleSlotNoQueue [9] 7 ASYNC_TYPE_READ).ms.read_q =
      exampleSlotNoQueue.read_q ++ [7] :=
  (C1_queue_async_failure_iff exampleSlotNoQueue [9] 7).2 (by decide) (by decide)

/-- C3: when a readability event (one containing POLLIN) is observed on a
mailslot whose pending-read queue is non-empty, exactly the head-of-queue
request is completed with STATUS_ALERTED, the remaining requests stay
pending in order, and the poll interests are recomputed from the remaining
queue — POLLIN if it is non-empty, none otherwise. -/
theorem C3_poll_event_completes_head (m : mailslot) (event r : Nat)
    (rest : List Nat) (hq : m.read_q = r :: rest) (hev : POLLIN &&& event ≠ 0) :
    mailslot_poll_event m event =
      ({ m with read_q := rest }, [(r, STATUS_ALERTED)],
       if rest ≠ [] then 0 ||| POLLIN else 0) := by
  simp [mailslot_poll_event, async_terminate_head, mailslot_get_poll_events,
    hq, hev]

/-- C3 witness: a POLLIN event on the example slot with queue [7, 8]
completes request 7 with STATUS_ALERTED, keeps 8 pending, and re-arms
POLLIN for the remaining queue. -/
theorem C3_poll_event_completes_head_witness :
    mailslot_poll_event exampleSlotQueued POLLIN =
      ({ exampleSlotQueued with read_q := [8] }, [(7, STATUS_ALERTED)],
       if [8] ≠ ([] : List Nat) then 0 ||| POLLIN else 0) :=
  C3_poll_event_completes_head exampleSlotQueued POLLIN 7 [8] rfl (by decide)

/-- C10: an accepted QueueAsyncRead (read type, non-empty writer set, a
message buffered) re-checks transport readiness before returning and, the
transport being readable, synchronously completes the head of the
just-extended queue with STATUS_ALERTED within the same call, leaving the
tail pending and re-arming the poll interests from it. -/
theorem C10_synchronous_completion (m : mailslot) (msgs : List Nat) (req : Nat)
    (hw : m.writers ≠ []) (hm : msgs ≠ []) :
    (mailslot_queue_async m msgs req ASYNC_TYPE_READ).error = none ∧
    (mailslot_queue_async m msgs req ASYNC_TYPE_READ).completions =
      [((m.read_q ++ [req]).headI, STATUS_ALERTED)] ∧
    (mailslot_queue_async m msgs req ASYNC_TYPE_READ).ms.read_q =
      (m.read_q ++ [req]).tail ∧
    (mailslot_queue_async m msgs req ASYNC_TYPE_READ).fd_events =
      some (if (m.read_q ++ [req]).tail ≠ [] then 0 ||| POLLIN else 0) := by
  rw [mailslot_queue_async_accepted m msgs req hw hm]
  refine ⟨rfl, rfl, rfl, ?_⟩
  simp [mailslot_get_poll_events]

/-- C10 witness: on the example slot with pending queue [7, 8] and a
buffered message, queueing request 11 completes request 7 synchronously
with STATUS_ALERTED and leaves [8, 11] pending with POLLIN re-armed. -/
theorem C10_synchronous_completion_witness :
    (mailslot_queue_async exampleSlotQueued [9] 11 ASYNC_TYPE_READ).error = none ∧
    (mailslot_queue_async exampleSlotQueued [9] 11 ASYNC_TYPE_READ).completions =
      [((exampleSlotQueued.read_q ++ [11]).headI, STATUS_ALERTED)] ∧
    (mailslot_queue_async exampleSlotQueued [9] 11 ASYNC_TYPE_READ).ms.read_q =
      (exampleSlotQueued.read_q ++ [11]).tail ∧
    (mailslot_queue_async exampleSlotQueued [9] 11 ASYNC_TYPE_READ).fd_events =
      some (if (exampleSlotQueued.read_q ++ [11]).tail ≠ [] then 0 ||| POLLIN else 0) :=
  C10_synchronous_completion exampleSlotQueued [9] 11 (by decide) (by decide)

/-- An integer difference of two tolowerW values vanishes exactly when the
lowered characters agree. -/
theorem tolowerW_sub_eq_zero_iff (c d : Nat) :
    ((tolowerW c : Int) - (tolowerW d : Int) = 0 ↔ tolowerW c = tolowerW d) := by
  constructor
  · intro h
    have h2 : (tolowerW c : Int) = (tolowerW d : Int) := by omega
    exact_mod_cast h2
  · intro h
    rw [h]
    omega

/-- strncmpiW over the full length of a NUL-free first list reports equality
exactly when every position agrees under tolowerW, provided the second list
is at least as long. -/
theorem strncmpiW_eq_zero_iff (tok nm : List Nat) (hz : (0 : Nat) ∉ tok)
    (h : tok.length ≤ nm.length) :
    (strncmpiW tok nm tok.length = 0 ↔
      ((tok.zip nm).all fun p => tolowerW p.1 == tolowerW p.2) = true) := by
  induction tok generalizing nm with
  | nil => simp [strncmpiW]
  | cons c cs ih =>
    cases nm with
    | nil => simp at h
    | cons d ds =>
      have hc0 : c ≠ 0 := fun hc => hz (by simp [hc])
      have hz2 : (0 : Nat) ∉ cs := fun hmem => hz (List.mem_cons_of_mem c hmem)
      have h2 : cs.length ≤ ds.length := by
        simpa using Nat.succ_le_succ_iff.mp (by simpa using h)
      show (strncmpiW (c :: cs) (d :: ds) (cs.length + 1) = 0 ↔ _)
      by_cases hd : tolowerW c = tolowerW d
      · have hdz : ((tolowerW c : Int) - (tolowerW d : Int)) = 0 :=
          (tolowerW_sub_eq_zero_iff c d).mpr hd
        simp only [strncmpiW, hdz]
        simp only [ne_eq, not_true_eq_false, if_false, if_neg hc0, reduceIte]
        rw [ih ds hz2 h2]
        simp [hd]
      · have hdz : ((tolowerW c : Int) - (tolowerW d : Int)) ≠ 0 :=
          fun he => hd ((tolowerW_sub_eq_zero_iff c d).mp he)
        simp only [strncmpiW, if_pos hdz]
        constructor
        · intro he
          exact absurd he hdz
        · intro hall
          simp only [List.zip_cons_cons, List.all_cons, Bool.and_eq_true,
            beq_iff_eq] at hall
          exact absurd hall.1 hd

/-- C5 counterexample: the name consisting of exactly the namespace token is
as long as the token and case-insensitively prefixed by it, yet
create_mailslot rejects it with STATUS_OBJECT_NAME_INVALID — the length
requirement of the code is strictly-longer-than-the-token, so the claim's
"shorter than the token" failure condition is too weak. -/
theorem C5_counterexample :
    create_mailslot [] slotToken 0 0 0 1 =
      Except.error STATUS_OBJECT_NAME_INVALID ∧
    ¬(slotToken.length < slotToken.length) ∧
    spec_ci_prefixed slotToken slotToken = true := by
  decide

/-- C5 (amended): name validation fails with STATUS_OBJECT_NAME_INVALID
exactly when the name is not strictly longer than the mailslot namespace
token or is not case-insensitively prefixed by it; every name strictly
longer than the token and case-insensitively prefixed by it passes name
validation. -/
theorem C5_name_validation (dir : List (List Nat × nsobject)) (name : List Nat)
    (max_msgsize read_timeout rfd wfd : Nat) :
    (create_mailslot dir name max_msgsize read_timeout rfd wfd =
        Except.error STATUS_OBJECT_NAME_INVALID ↔
      ¬(slotToken.length < name.length ∧ spec_ci_prefixed slotToken name = true)) := by
  by_cases hlen : name.length ≤ slotToken.length
  · constructor
    · intro _ hand
      exact absurd hand.1 (by omega)
    · intro _
      unfold create_mailslot
      rw [if_pos (Or.inl hlen)]
  · push_neg at hlen
    have hle : slotToken.length ≤ name.length := Nat.le_of_lt hlen
    have hz : (0 : Nat) ∉ slotToken := by decide
    have hiff := strncmpiW_eq_zero_iff slotToken name hz hle
    have hpref : spec_ci_prefixed slotToken name =
        ((slotToken.zip name).all fun p => tolowerW p.1 == tolowerW p.2) := by
      simp [spec_ci_prefixed, hle]
    by_cases hcmp : strncmpiW slotToken name slotToken.length = 0
    · have hall := hiff.mp hcmp
      have hcond : ¬(name.length ≤ slotToken.length ∨
          strncmpiW slotToken name slotToken.length ≠ 0) := by
        push_neg
        exact ⟨by omega, hcmp⟩
      constructor
      · intro hres
        exfalso
        unfold create_mailslot at hres
        rw [if_neg hcond] at hres
        cases hfo : find_object dir name with
        | none =>
          rw [hfo] at hres
          exact Except.noConfusion hres
        | some o =>
          cases o with
          | slotObj ms =>
            rw [hfo] at hres
            have hinj := Except.error.inj hres
            simp [STATUS_OBJECT_NAME_COLLISION, STATUS_OBJECT_NAME_INVALID] at hinj
          | otherObj tg =>
            rw [hfo] at hres
            have hinj := Except.error.inj hres
            simp [STATUS_OBJECT_TYPE_MISMATCH, STATUS_OBJECT_NAME_INVALID] at hinj
      · intro hno
        exfalso
        apply hno
        refine ⟨hlen, ?_⟩
        rw [hpref]
        exact hall
    · constructor
      · intro _ hand
        apply hcmp
        apply hiff.mpr
        rw [← hpref]
        exact hand.2
      · intro _
        unfold create_mailslot
        rw [if_pos (Or.inr hcmp)]

/-- C6 counterexample: with share-read requested, opening a name bound to an
object that is not a mailslot reports STATUS_NO_SUCH_FILE at the request
boundary — not the type-mismatch condition — and opening an unresolved name
also reports STATUS_NO_SUCH_FILE, not the name-not-found condition, so the
two specific conditions are not the ones reported to the caller. -/
theorem C6_counterexample :
    req_open_mailslot exampleForeignDir [1] 0 FILE_SHARE_READ false =
      Except.error STATUS_NO_SUCH_FILE ∧
    STATUS_NO_SUCH_FILE ≠ STATUS_OBJECT_TYPE_MISMATCH ∧
    req_open_mailslot [] [1] 0 FILE_SHARE_READ false =
      Except.error STATUS_NO_SUCH_FILE ∧
    STATUS_NO_SUCH_FILE ≠ STATUS_OBJECT_NAME_NOT_FOUND := by
  decide

/-- C6 (amended): with share-read requested, the internal lookup
distinguishes the two failures — STATUS_OBJECT_NAME_NOT_FOUND when the name
does not resolve, STATUS_OBJECT_TYPE_MISMATCH when it resolves to an object
of another kind — but the request handler overwrites either error and
reports the single condition STATUS_NO_SUCH_FILE to the caller at the
request boundary. -/
theorem C6_open_error_paths (dir : List (List Nat × nsobject)) (name : List Nat)
    (access sharing : Nat) (inherit : Bool)
    (hs : ¬(sharing &&& FILE_SHARE_READ = 0)) :
    (find_object dir name = none →
      open_mailslot dir name = Except.error STATUS_OBJECT_NAME_NOT_FOUND ∧
      req_open_mailslot dir name access sharing inherit =
        Except.error STATUS_NO_SUCH_FILE) ∧
    (∀ tag, find_object dir name = some (nsobject.otherObj tag) →
      open_mailslot dir name = Except.error STATUS_OBJECT_TYPE_MISMATCH ∧
      req_open_mailslot dir name access sharing inherit =
        Except.error STATUS_NO_SUCH_FILE) := by
  constructor
  · intro hfo
    have ho : open_mailslot dir name =
        Except.error STATUS_OBJECT_NAME_NOT_FOUND := by
      unfold open_mailslot
      rw [hfo]
    refine ⟨ho, ?_⟩
    unfold req_open_mailslot
    rw [if_neg hs, ho]
  · intro tag hfo
    have ho : open_mailslot dir name =
        Except.error STATUS_OBJECT_TYPE_MISMATCH := by
      unfold open_mailslot
      rw [hfo]
    refine ⟨ho, ?_⟩
    unfold req_open_mailslot
    rw [if_neg hs, ho]

/-- C6 witness: in the example directory binding the name to a non-mailslot
object, the internal lookup reports the type mismatch while the boundary
reports STATUS_NO_SUCH_FILE. -/
theorem C6_open_error_paths_witness :
    open_mailslot exampleForeignDir [1] =
      Except.error STATUS_OBJECT_TYPE_MISMATCH ∧
    req_open_mailslot exampleForeignDir [1] 0 FILE_SHARE_READ false =
      Except.error STATUS_NO_SUCH_FILE :=
  (C6_open_error_paths exampleForeignDir [1] 0 FILE_SHARE_READ false
      (by decide)).2 0 (by decide)

/-- C7: set_mailslot_info on a valid mailslot handle leaves the pending-read
queue, the writer set and the buffered transport untouched, keeps and
reports max_msgsize, modifies read_timeout only when the caller's flag
requests a timeout change, and reports the next-message size by
non-consuming peek — the head datagram size, or MAILSLOT_NO_MESSAGE when
nothing is buffered. -/
theorem C7_set_info_frame (m : mailslot) (msgs : List Nat) (flags t : Nat) :
    (req_set_mailslot_info m msgs flags t).1.read_q = m.read_q ∧
    (req_set_mailslot_info m msgs flags t).1.writers = m.writers ∧
    (req_set_mailslot_info m msgs flags t).2.1 = msgs ∧
    (req_set_mailslot_info m msgs flags t).1.max_msgsize = m.max_msgsize ∧
    (req_set_mailslot_info m msgs flags t).2.2.max_msgsize = m.max_msgsize ∧
    (flags &&& MAILSLOT_SET_READ_TIMEOUT = 0 →
      (req_set_mailslot_info m msgs flags t).1.read_timeout = m.read_timeout) ∧
    (flags &&& MAILSLOT_SET_READ_TIMEOUT ≠ 0 →
      (req_set_mailslot_info m msgs flags t).1.read_timeout = t) ∧
    (req_set_mailslot_info m msgs flags t).2.2.next_msgsize =
      (match msgs with
       | [] => MAILSLOT_NO_MESSAGE
       | n :: _ => n) := by
  by_cases hf : flags &&& MAILSLOT_SET_READ_TIMEOUT = 0
  · simp [req_set_mailslot_info, hf]
  · simp [req_set_mailslot_info, hf]

/-- C7 witness: a call with the timeout flag set updates read_timeout to the
requested value while a buffered message of size 12 is reported and left in
place. -/
theorem C7_set_info_frame_witness :
    (req_set_mailslot_info exampleSlotQueued [12] MAILSLOT_SET_READ_TIMEOUT
        55).1.read_timeout = 55 :=
  (C7_set_info_frame exampleSlotQueued [12] MAILSLOT_SET_READ_TIMEOUT
      55).2.2.2.2.2.2.1 (by decide)
